import Mathlib

/-!
Shallow embedding of the signer abstraction and transaction-dispatch path of
the ai-agent-sonic repository (src/signer/mod.rs, src/wallet_manager/mod.rs,
src/solana/tools.rs, src/solana/trade.rs, src/solana/jup.rs,
src/cross_chain/tools.rs).

External effects (HTTP, database, RPC, bincode, task spawning) are embedded as
explicit oracle parameters and as event traces; the control flow, request
construction and error strings are translated from the source.
-/

namespace AgentSonic

/-! ### A model of serde_json::Value -/

inductive Json where
  | null
  | bool (b : Bool)
  | num (n : Int)
  | str (s : String)
  | arr (xs : List Json)
  | obj (fields : List (String × Json))

/-- Map insertion as used by `obj.insert(...)` on a serde_json object: replace
the value when the key is present, otherwise add the entry. -/
def insertKey (k : String) (v : Json) : List (String × Json) → List (String × Json)
  | [] => [(k, v)]
  | (k1, v1) :: rest =>
    if k1 = k then (k, v) :: rest else (k1, v1) :: insertKey k v rest

def lookupKey (k : String) : List (String × Json) → Option Json
  | [] => none
  | (k1, v1) :: rest => if k1 = k then some v1 else lookupKey k rest

/-! ### base64 decoding (the `base64::decode` standard alphabet with required
canonical padding), used by sign_and_send_encoded_solana_transaction -/

def b64Val (c : Char) : Option Nat :=
  if 'A' ≤ c ∧ c ≤ 'Z' then some (c.toNat - 'A'.toNat)
  else if 'a' ≤ c ∧ c ≤ 'z' then some (c.toNat - 'a'.toNat + 26)
  else if '0' ≤ c ∧ c ≤ '9' then some (c.toNat - '0'.toNat + 52)
  else if c = '+' then some 62
  else if c = '/' then some 63
  else none

/-- Decode a base64 character stream four characters at a time; padding with
one or two trailing `=` is accepted only in the final group and only with zero
trailing bits (the canonical-padding behaviour of the standard engine). -/
def base64DecodeChunks : List Char → Except String (List Nat)
  | [] => Except.ok []
  | c0 :: c1 :: c2 :: c3 :: rest =>
    match b64Val c0, b64Val c1 with
    | some v0, some v1 =>
      if c2 = '=' then
        if c3 = '=' ∧ rest = [] then
          if v1 % 16 = 0 then Except.ok [v0 * 4 + v1 / 16]
          else Except.error "Invalid last symbol"
        else Except.error "Invalid padding"
      else
        match b64Val c2 with
        | some v2 =>
          if c3 = '=' then
            if rest = [] then
              if v2 % 4 = 0 then
                Except.ok [v0 * 4 + v1 / 16, v1 % 16 * 16 + v2 / 4]
              else Except.error "Invalid last symbol"
            else Except.error "Invalid padding"
          else
            match b64Val c3 with
            | some v3 =>
              match base64DecodeChunks rest with
              | Except.ok tail =>
                Except.ok ([v0 * 4 + v1 / 16, v1 % 16 * 16 + v2 / 4,
                  v2 % 4 * 64 + v3] ++ tail)
              | Except.error e => Except.error e
            | none => Except.error "Invalid byte"
        | none => Except.error "Invalid byte"
    | _, _ => Except.error "Invalid byte"
  | _ => Except.error "Invalid input length"

def base64Decode (s : String) : Except String (List Nat) :=
  base64DecodeChunks s.data

/-! ### Privy request shapes (src/wallet_manager/types.rs via their use sites) -/

structure SignTransactionParams where
  transaction : Json

structure SignTransactionRequest where
  address : String
  chain_type : String
  method : String
  params : SignTransactionParams

structure SendRawTransactionRequest where
  method : String
  params : List String

structure SignAndSendTransactionParams where
  transaction : String
  encoding : String

structure SignAndSendTransactionRequest where
  address : String
  chain_type : String
  method : String
  caip2 : String
  params : SignAndSendTransactionParams

/-- The mutation performed on the caller-supplied transaction JSON in
WalletManager::sign_and_send_json_evm_transaction:
`if let Value::Object(ref mut obj) = transaction { obj.insert("type", 0) }`. -/
def setEvmTransactionType (transaction : Json) : Json :=
  match transaction with
  | Json.obj fields => Json.obj (insertKey "type" (Json.num 0) fields)
  | other => other

/-- The SignTransactionRequest built by
WalletManager::sign_and_send_json_evm_transaction (src/wallet_manager/mod.rs,
lines 208-218). -/
def buildEvmSignRequest (address : String) (transaction : Json) :
    SignTransactionRequest :=
  { address := address
    chain_type := "ethereum"
    method := "eth_signTransaction"
    params := { transaction := setEvmTransactionType transaction } }

/-- The SignAndSendTransactionRequest built by
WalletManager::sign_and_send_encoded_solana_transaction (lines 412-421). -/
def buildSolanaSignRequest (address : String) (encoded_transaction : String) :
    SignAndSendTransactionRequest :=
  { address := address
    chain_type := "solana"
    method := "signAndSendTransaction"
    caip2 := "solana:5eykt4UsFv8P8NJdTREpY1vzqKqZKvdp"
    params := { transaction := encoded_transaction, encoding := "base64" } }

/-! ### Rust u128 decimal parsing, used by check_approval -/

/-- `amount.parse::<u128>()`: an optional leading `+`, then one or more ASCII
digits, and the value must fit in 128 bits. -/
def parse_u128 (s : String) : Option Nat :=
  let digits := match s.data with
    | '+' :: rest => rest
    | cs => cs
  if digits.isEmpty then none
  else if digits.all Char.isDigit then
    let v := digits.foldl (fun acc c => acc * 10 + (c.toNat - '0'.toNat)) 0
    if v < 2 ^ 128 then some v else none
  else none

/-- check_approval (src/cross_chain/tools.rs, lines 184-200): the allowance is
fetched first (its failure propagates), then the amount string is parsed, then
the comparison result is stringified. -/
def check_approval (allowance : Except String Nat) (amount : String) :
    Except String String :=
  match allowance with
  | Except.error e => Except.error e
  | Except.ok a =>
    match parse_u128 amount with
    | none => Except.error "Invalid amount"
    | some amt => Except.ok (if a ≥ amt then "true" else "false")

/-! ### Default methods of the TransactionSigner trait (src/signer/mod.rs,
lines 40-87); a signer that does not override them gets exactly these bodies -/

structure InstructionAccountMeta where
  pubkey : String
  isSigner : Bool
  isWritable : Bool

structure SolInstruction where
  program_id : String
  accounts : List InstructionAccountMeta
  data : List Nat

/-- solana_sdk::transaction::Transaction as far as this codebase builds it:
Transaction::new_with_payer plus an optional later blockhash assignment. -/
structure SolTransaction where
  instructions : List SolInstruction
  payer : Option String
  recent_blockhash : String

def TransactionSigner.default_sign_and_send_solana_transaction
    (_tx : SolTransaction) : Except String String :=
  Except.error "Solana transactions not supported by this signer"

def TransactionSigner.default_sign_and_send_evm_transaction
    (_tx : Json) : Except String String :=
  Except.error "EVM transactions not supported by this signer"

def TransactionSigner.default_sign_and_send_encoded_solana_transaction
    (_tx : String) : Except String String :=
  Except.error "Solana transactions not supported by this signer"

def TransactionSigner.default_sign_and_send_json_evm_transaction
    (_tx : Json) : Except String String :=
  Except.error "EVM transactions not supported by this signer"

/-! ### Jupiter API shapes (src/solana/jup.rs) -/

structure PlatformFee where
  amount : String
  fee_bps : Int

structure DynamicSlippage where
  min_bps : Int
  max_bps : Int

structure SwapInfo where
  amm_key : String
  label : Option String
  input_mint : String
  output_mint : String
  in_amount : String
  out_amount : String
  fee_amount : String
  fee_mint : String

structure RoutePlan where
  swap_info : SwapInfo
  percent : Int

structure QuoteResponse where
  input_mint : String
  in_amount : String
  output_mint : String
  out_amount : String
  other_amount_threshold : String
  swap_mode : String
  slippage_bps : Int
  platform_fee : Option PlatformFee
  price_impact_pct : String
  route_plan : List RoutePlan
  context_slot : Nat
  time_taken : Float

structure SwapRequest where
  user_public_key : String
  wrap_and_unwrap_sol : Bool
  use_shared_accounts : Bool
  fee_account : Option String
  tracking_account : Option String
  compute_unit_price_micro_lamports : Option Nat
  prioritization_fee_lamports : Option Nat
  as_legacy_transaction : Bool
  use_token_ledger : Bool
  destination_token_account : Option String
  dynamic_compute_unit_limit : Bool
  skip_user_accounts_rpc_calls : Bool
  dynamic_slippage : Option DynamicSlippage
  quote_response : QuoteResponse

structure InstructionAccountData where
  pubkey : String
  isSigner : Bool
  isWritable : Bool

structure InstructionData where
  program_id : String
  accounts : List InstructionAccountData
  data : String

structure SwapInstructionsResponse where
  token_ledger_instruction : Option InstructionData
  compute_budget_instructions : Option (List InstructionData)
  setup_instructions : List InstructionData
  swap_instruction : InstructionData
  cleanup_instruction : Option InstructionData
  address_lookup_table_addresses : List String

/-! ### External interactions as an event trace

An operation is embedded as a function from its inputs plus oracles for the
responses of the external world to the pair of the list of external
interactions it issues (in order) and its result. -/

structure HttpResponse where
  success : Bool
  body : String

inductive ExtEvent where
  | dbQuery (sql : String) (binding : String)
  | privyEvmSignPost (url : String) (request : SignTransactionRequest)
  | sonicBroadcastPost (url : String) (request : SendRawTransactionRequest)
  | privySolanaSignPost (url : String) (request : SignAndSendTransactionRequest)
  | swapInstructionsPost (url : String) (request : SwapRequest)
  | quoteGet (url : String)
  | rpcGetAccount (account : String)
  | rpcGetLatestBlockhash
  | spawnBlocking

/-- Counts the HTTP requests in a trace (database queries, chain-RPC SDK calls
and task spawns are not HTTP requests). -/
def countHttp (trace : List ExtEvent) : Nat :=
  trace.countP (fun e =>
    match e with
    | ExtEvent.privyEvmSignPost _ _ => true
    | ExtEvent.sonicBroadcastPost _ _ => true
    | ExtEvent.privySolanaSignPost _ _ => true
    | ExtEvent.swapInstructionsPost _ _ => true
    | ExtEvent.quoteGet _ => true
    | _ => false)

/-- Counts the ad-hoc blocking worker tasks spawned in a trace. -/
def countSpawn (trace : List ExtEvent) : Nat :=
  trace.countP (fun e =>
    match e with
    | ExtEvent.spawnBlocking => true
    | _ => false)

def walletsCurrentQuery : String :=
  "SELECT wallet_id FROM wallets WHERE address = $1 AND current_wallet = TRUE LIMIT 1"

def privyWalletRpcUrl (walletId : String) : String :=
  "https://api.privy.io/v1/wallets/" ++ walletId ++ "/rpc"

def sonicRpcUrl : String := "https://rpc.soniclabs.com"

def jupiterSwapInstructionsUrl : String :=
  "https://quote-api.jup.ag/v6/swap-instructions"

/-- WalletManager::sign_and_send_json_evm_transaction
(src/wallet_manager/mod.rs, lines 172-272).  Oracle parameters: `walletId` is
the database lookup result, `respond` maps a URL to the network outcome of the
POST to it, `parseSignedTransaction` is the serde parse of the Privy
SignTransactionResponse down to its signed_transaction field, `parseTxHash` is
the serde parse of the broadcast reply.  The time-derived authorization
headers do not influence control flow and are elided. -/
def sign_and_send_json_evm_transaction
    (walletId : Option String)
    (respond : String → Except String HttpResponse)
    (parseSignedTransaction : String → Except String String)
    (parseTxHash : String → Except String String)
    (address : String) (transaction : Json) :
    List ExtEvent × Except String String :=
  let dbEvents := [ExtEvent.dbQuery walletsCurrentQuery address]
  match walletId with
  | none => (dbEvents, Except.error "Wallet ID not found for this wallet_pubkey")
  | some wid =>
    let request := buildEvmSignRequest address transaction
    let url := privyWalletRpcUrl wid
    let events1 := dbEvents ++ [ExtEvent.privyEvmSignPost url request]
    match respond url with
    | Except.error e => (events1, Except.error e)
    | Except.ok resp =>
      if resp.success = false then
        (events1, Except.error ("Failed to send transaction: " ++ resp.body))
      else
        match parseSignedTransaction resp.body with
        | Except.error e => (events1, Except.error e)
        | Except.ok signed_tx =>
          let send_request : SendRawTransactionRequest :=
            { method := "eth_sendRawTransaction", params := [signed_tx] }
          let events2 := events1 ++
            [ExtEvent.sonicBroadcastPost sonicRpcUrl send_request]
          match respond sonicRpcUrl with
          | Except.error e => (events2, Except.error e)
          | Except.ok rpcResp =>
            if rpcResp.success = false then
              (events2, Except.error
                ("Failed to broadcast transaction: " ++ rpcResp.body))
            else
              match parseTxHash rpcResp.body with
              | Except.error e => (events2, Except.error e)
              | Except.ok tx_hash => (events2, Except.ok tx_hash)

/-- WalletManager::sign_and_send_encoded_solana_transaction
(src/wallet_manager/mod.rs, lines 341-449).  `deserialize` is the
`bincode::deserialize::<Transaction>` oracle on the decoded bytes,
`parseHash` the serde parse of SignAndSendTransactionResponse down to
result.data.hash.  On a base64-decode or deserialize failure the source
prints the error and returns `Ok(Default::default())`, the empty string. -/
def sign_and_send_encoded_solana_transaction
    (walletId : Option String)
    (deserialize : List Nat → Except String Unit)
    (respond : String → Except String HttpResponse)
    (parseHash : String → Except String String)
    (address : String) (encoded_transaction : String) :
    List ExtEvent × Except String String :=
  let dbEvents := [ExtEvent.dbQuery walletsCurrentQuery address]
  match walletId with
  | none => (dbEvents, Except.error "Wallet ID not found for this wallet_pubkey")
  | some wid =>
    match base64Decode encoded_transaction with
    | Except.error _ => (dbEvents, Except.ok "")
    | Except.ok decoded_bytes =>
      match deserialize decoded_bytes with
      | Except.error _ => (dbEvents, Except.ok "")
      | Except.ok _ =>
        let request := buildSolanaSignRequest address encoded_transaction
        let url := privyWalletRpcUrl wid
        let events1 := dbEvents ++ [ExtEvent.privySolanaSignPost url request]
        match respond url with
        | Except.error e => (events1, Except.error e)
        | Except.ok resp =>
          if resp.success = false then
            (events1, Except.error ("Failed to sign transaction: " ++ resp.body))
          else
            match parseHash resp.body with
            | Except.error e => (events1, Except.error e)
            | Except.ok hash => (events1, Except.ok hash)

def systemProgramId : String := "11111111111111111111111111111111"

/-- Jupiter::convert_instruction_data (src/solana/jup.rs, lines 490-514).
`parsePubkey` is the `Pubkey::from_str` oracle (base58 parsing lives in the
SDK). -/
def convert_instruction_data (parsePubkey : String → Except String String)
    (ix_data : InstructionData) : Except String SolInstruction := do
  let program_id ← parsePubkey ix_data.program_id
  let accounts ← ix_data.accounts.mapM (fun acc => do
    let pk ← parsePubkey acc.pubkey
    Except.ok { pubkey := pk, isSigner := acc.isSigner,
                isWritable := acc.isWritable : InstructionAccountMeta })
  let data ← base64Decode ix_data.data
  Except.ok { program_id := program_id, accounts := accounts, data := data }

/-- Jupiter::swap (src/solana/jup.rs, lines 163-272).  `ata` is
get_associated_token_address, `blockhash` the RpcClient::get_latest_blockhash
oracle. -/
def Jupiter.swap
    (parsePubkey : String → Except String String)
    (ata : String → String → String)
    (respond : String → Except String HttpResponse)
    (parseSwapInstructions : String → Except String SwapInstructionsResponse)
    (blockhash : Except String String)
    (quote_response : QuoteResponse) (owner : String) :
    List ExtEvent × Except String SolTransaction :=
  match parsePubkey quote_response.output_mint with
  | Except.error _ => ([], Except.error "Invalid output mint")
  | Except.ok output_mint =>
    let is_output_sol := output_mint = systemProgramId
    let output_ata := if is_output_sol then none else some (ata owner output_mint)
    let swap_request : SwapRequest :=
      { user_public_key := owner
        wrap_and_unwrap_sol := is_output_sol
        use_shared_accounts := false
        fee_account := none
        tracking_account := none
        compute_unit_price_micro_lamports := none
        prioritization_fee_lamports := none
        as_legacy_transaction := false
        use_token_ledger := false
        destination_token_account := output_ata
        dynamic_compute_unit_limit := false
        skip_user_accounts_rpc_calls := true
        dynamic_slippage := none
        quote_response := quote_response }
    let events1 := [ExtEvent.swapInstructionsPost jupiterSwapInstructionsUrl swap_request]
    match respond jupiterSwapInstructionsUrl with
    | Except.error e => (events1, Except.error e)
    | Except.ok raw_res =>
      if raw_res.success = false then
        (events1, Except.error ("Jupiter Swap Error: " ++ raw_res.body))
      else
        match parseSwapInstructions raw_res.body with
        | Except.error e =>
          (events1, Except.error ("Failed to parse swap response: " ++ e))
        | Except.ok response =>
          match (response.setup_instructions ++ [response.swap_instruction]).mapM
              (convert_instruction_data parsePubkey) with
          | Except.error e => (events1, Except.error e)
          | Except.ok instructions =>
            let events2 := events1 ++ [ExtEvent.rpcGetLatestBlockhash]
            match blockhash with
            | Except.error e => (events2, Except.error e)
            | Except.ok bh =>
              (events2, Except.ok
                { instructions := instructions
                  payer := some owner
                  recent_blockhash := bh })

def jupiterQuoteUrl (input_mint output_mint : String)
    (amount slippage : Nat) : String :=
  "https://quote-api.jup.ag/v6/quote?inputMint=" ++ input_mint ++
  "&outputMint=" ++ output_mint ++ "&amount=" ++ toString amount ++
  "&slippageBps=" ++ toString slippage ++ "&asLegacyTransaction=true"

/-- Jupiter::fetch_quote (src/solana/jup.rs, lines 147-161).  The source does
not check the HTTP status; the body is handed straight to the serde parse. -/
def Jupiter.fetch_quote
    (respond : String → Except String HttpResponse)
    (parseQuote : String → Except String QuoteResponse)
    (input_mint output_mint : String) (amount slippage : Nat) :
    List ExtEvent × Except String QuoteResponse :=
  let url := jupiterQuoteUrl input_mint output_mint amount slippage
  ([ExtEvent.quoteGet url],
    match respond url with
    | Except.error e => Except.error e
    | Except.ok resp => parseQuote resp.body)

/-- create_trade_transaction (src/solana/trade.rs, lines 16-38). -/
def create_trade_transaction
    (parsePubkey : String → Except String String)
    (ata : String → String → String)
    (respond : String → Except String HttpResponse)
    (parseQuote : String → Except String QuoteResponse)
    (parseSwapInstructions : String → Except String SwapInstructionsResponse)
    (blockhash : Except String String)
    (input_mint : String) (input_amount : Nat) (output_mint : String)
    (slippage_bps : Nat) (owner : String) :
    List ExtEvent × Except String SolTransaction :=
  let fetched := Jupiter.fetch_quote respond parseQuote input_mint output_mint
    input_amount slippage_bps
  match fetched.2 with
  | Except.error e => (fetched.1, Except.error ("Failed to fetch quote: " ++ e))
  | Except.ok quote =>
    let swapped := Jupiter.swap parsePubkey ata respond parseSwapInstructions
      blockhash quote owner
    match swapped.2 with
    | Except.error e =>
      (fetched.1 ++ swapped.1, Except.error ("Failed to swap: " ++ e))
    | Except.ok tx => (fetched.1 ++ swapped.1, Except.ok tx)

/-- create_ata_if_needed (src/solana/trade.rs, lines 40-69).  `accountFound`
is the RpcClient::get_account oracle, `ataIx` the
create_associated_token_account instruction builder from the SPL crate.  In
the not-found branch the source fetches a blockhash (propagating its failure)
but builds the transaction without installing it. -/
def create_ata_if_needed
    (ata : String → String → String)
    (ataIx : String → String → SolInstruction)
    (accountFound : String → Bool)
    (blockhash : Except String String)
    (owner mint : String) :
    List ExtEvent × Except String SolTransaction :=
  let a := ata owner mint
  if accountFound a = false then
    match blockhash with
    | Except.error e =>
      ([ExtEvent.rpcGetAccount a, ExtEvent.rpcGetLatestBlockhash],
        Except.error e)
    | Except.ok _bh =>
      ([ExtEvent.rpcGetAccount a, ExtEvent.rpcGetLatestBlockhash],
        Except.ok
          { instructions := [ataIx owner mint]
            payer := some owner
            recent_blockhash := "" })
  else
    ([ExtEvent.rpcGetAccount a],
      Except.ok
        { instructions := []
          payer := some owner
          recent_blockhash := "" })

/-- perform_jupiter_swap (src/solana/tools.rs, lines 47-99).  The signer
resolved from the context is abstracted by its pubkey string and its
sign_and_send_solana_transaction oracle `signTx`; each of the two
tokio::task::spawn_blocking calls appears as a spawnBlocking event, with
`joinError1`/`joinError2` the potential JoinError of each task. -/
def perform_jupiter_swap
    (parsePubkey : String → Except String String)
    (ata : String → String → String)
    (ataIx : String → String → SolInstruction)
    (accountFound : String → Bool)
    (respond : String → Except String HttpResponse)
    (parseQuote : String → Except String QuoteResponse)
    (parseSwapInstructions : String → Except String SwapInstructionsResponse)
    (blockhash : Except String String)
    (signTx : SolTransaction → Except String String)
    (joinError1 joinError2 : Option String)
    (ownerPubkey : String)
    (input_mint : String) (input_amount : Nat) (output_mint : String)
    (slippage_bps : Nat) :
    List ExtEvent × Except String String :=
  match parsePubkey ownerPubkey with
  | Except.error e => ([], Except.error e)
  | Except.ok owner_pubkey =>
    match parsePubkey output_mint with
    | Except.error _ => ([], Except.error "Invalid output mint")
    | Except.ok output_mint_pubkey =>
      let created := create_ata_if_needed ata ataIx accountFound blockhash
        owner_pubkey output_mint_pubkey
      match created.2 with
      | Except.error e => (created.1, Except.error e)
      | Except.ok tx_ata =>
        let events1 := created.1 ++ [ExtEvent.spawnBlocking]
        match joinError1 with
        | some je => (events1, Except.error ("Join error: " ++ je))
        | none =>
          match signTx tx_ata with
          | Except.error e => (events1, Except.error e)
          | Except.ok _result =>
            let traded := create_trade_transaction parsePubkey ata respond
              parseQuote parseSwapInstructions blockhash input_mint
              input_amount output_mint slippage_bps owner_pubkey
            match traded.2 with
            | Except.error e => (events1 ++ traded.1, Except.error e)
            | Except.ok tx =>
              let events2 := events1 ++ traded.1 ++ [ExtEvent.spawnBlocking]
              match joinError2 with
              | some je => (events2, Except.error ("Join error: " ++ je))
              | none =>
                match signTx tx with
                | Except.error e => (events2, Except.error e)
                | Except.ok result => (events2, Except.ok result)

/-! ### SignerContext (src/signer/mod.rs, lines 89-107)

`tokio::task_local! { static CURRENT_SIGNER: Arc<dyn TransactionSigner> }` is
a task-local slot that is either unset or holds the signer installed by the
innermost `CURRENT_SIGNER.scope(signer, f)`.  A computation that may consult
the slot is embedded as a free monad over the single effect "read the current
signer"; running it supplies the state of the slot, and reading an unset slot
is the `LocalKey::get` panic, embedded as `none`. -/

inductive SignerComp (σ : Type) (α : Type) where
  | pure (a : α)
  | current (k : σ → SignerComp σ α)

def SignerComp.bind {σ α β : Type} :
    SignerComp σ α → (α → SignerComp σ β) → SignerComp σ β
  | SignerComp.pure a, k => k a
  | SignerComp.current f, k => SignerComp.current (fun s => (f s).bind k)

/-- Runs a computation with the task-local CURRENT_SIGNER slot in the given
state; `none` is the panic of `CURRENT_SIGNER.get()` on an unset slot. -/
def runWithTaskLocal {σ α : Type} (slot : Option σ) :
    SignerComp σ α → Option α
  | SignerComp.pure a => some a
  | SignerComp.current k =>
    match slot with
    | none => none
    | some s => runWithTaskLocal slot (k s)

/-- SignerContext::current(): `CURRENT_SIGNER.get().clone()`. -/
def SignerContext.currentSigner {σ : Type} : SignerComp σ σ :=
  SignerComp.current SignerComp.pure

/-- SignerContext::with_signer(signer, f): `CURRENT_SIGNER.scope(signer, f)`
installs the signer in the task-local slot for the extent of f. -/
def SignerContext.with_signer {σ α : Type} (signer : σ)
    (f : SignerComp σ α) : Option α :=
  runWithTaskLocal (some signer) f

/-- The signer interface as the tools see it: an address, a pubkey, and the
chain signing methods (each embedded as a pure oracle). -/
structure SignerModel where
  address : String
  pubkey : String

/-- get_public_key (src/solana/tools.rs, lines 159-162):
`Ok(SignerContext::current().await.pubkey())`. -/
def get_public_key : SignerComp SignerModel (Except String String) :=
  SignerComp.bind SignerContext.currentSigner
    (fun owner => SignerComp.pure (Except.ok owner.pubkey))

/-! ### multichain_swap (src/cross_chain/tools.rs, lines 112-173)

Modelled from the spec where the source is missing: the LiFi client, its
quote type, and the helpers `TransactionRequest::is_solana`,
`TransactionRequest::to_json_rpc` and `wrap_unsafe` live in
src/cross_chain/lifi.rs and src/common, which are not among the provided
sources.  Per the spec the quote is a pass-through third-party shape with an
optional transaction request; `is_solana` reports its chain kind,
`to_json_rpc` is the thin translation to the JSON form, and `wrap_unsafe`
runs its closure on a single ad-hoc spawned blocking task and returns the
closure's result unchanged. -/

structure TransactionRequestModel where
  isSolanaRequest : Bool
  data : String
  jsonRpcForm : Json

def TransactionRequestModel.is_solana (t : TransactionRequestModel) : Bool :=
  t.isSolanaRequest

def TransactionRequestModel.to_json_rpc (t : TransactionRequestModel) : Json :=
  t.jsonRpcForm

structure QuoteModel where
  transaction_request : Option TransactionRequestModel

/-- The two signing paths a transaction can be submitted through. -/
inductive Submission where
  | encodedSolana (data : String)
  | jsonEvm (tx : Json)

/-- `e.to_string().chars().take(300)` applied to a quote error before it is
reported (the outer Debug formatting is std formatting and is elided). -/
def take300 (e : String) : String := String.mk (e.data.take 300)

/-- multichain_swap after the two context/address lookups: dispatch on the
shape of the fetched quote.  The result pairs the list of submissions handed
to the signer with the returned value; `signSolana` and `signEvm` are the
signer's sign_and_send_encoded_solana_transaction and
sign_and_send_json_evm_transaction oracles. -/
def multichain_swap
    (quote : Except String QuoteModel)
    (signSolana : String → Except String String)
    (signEvm : Json → Except String String) :
    List Submission × Except String String :=
  match quote with
  | Except.error e => ([], Except.error (take300 e))
  | Except.ok q =>
    match q.transaction_request with
    | none => ([], Except.error "No transaction request")
    | some transaction_request =>
      if transaction_request.is_solana then
        ([Submission.encodedSolana transaction_request.data],
          signSolana transaction_request.data)
      else
        ([Submission.jsonEvm transaction_request.to_json_rpc],
          signEvm transaction_request.to_json_rpc)

/-! ### Concrete sample inputs and oracles, used to evaluate the operations at
specific points -/

def sampleQuote : QuoteResponse :=
  { input_mint := "So11111111111111111111111111111111111111112"
    in_amount := "1000000"
    output_mint := "OUTMINT"
    out_amount := "2000000"
    other_amount_threshold := "0"
    swap_mode := "ExactIn"
    slippage_bps := 50
    platform_fee := none
    price_impact_pct := "0"
    route_plan := []
    context_slot := 0
    time_taken := 0.0 }

def sampleSwapInstructions : SwapInstructionsResponse :=
  { token_ledger_instruction := none
    compute_budget_instructions := none
    setup_instructions := []
    swap_instruction := { program_id := "JUP6", accounts := [], data := "" }
    cleanup_instruction := none
    address_lookup_table_addresses := [] }

/-- An oracle under which every HTTP request succeeds with body "resp". -/
def okRespond : String → Except String HttpResponse :=
  fun _ => Except.ok { success := true, body := "resp" }

/-- An oracle under which every HTTP request comes back with a non-success
status and body "boom". -/
def failRespond : String → Except String HttpResponse :=
  fun _ => Except.ok { success := false, body := "boom" }

/-- A Pubkey::from_str oracle that accepts every string. -/
def okPubkeyParse : String → Except String String := fun s => Except.ok s

/-! ## Helper lemmas -/

theorem lookupKey_insertKey_self (k : String) (v : Json)
    (fields : List (String × Json)) :
    lookupKey k (insertKey k v fields) = some v := by
  induction fields with
  | nil => simp [insertKey, lookupKey]
  | cons p rest ih =>
    obtain ⟨k1, v1⟩ := p
    by_cases h : k1 = k
    · simp [insertKey, lookupKey, h]
    · simp [insertKey, lookupKey, h, ih]

theorem lookupKey_insertKey_ne (k k2 : String) (hne : k2 ≠ k) (v : Json)
    (fields : List (String × Json)) :
    lookupKey k2 (insertKey k v fields) = lookupKey k2 fields := by
  induction fields with
  | nil => simp [insertKey, lookupKey, Ne.symm hne]
  | cons p rest ih =>
    obtain ⟨k1, v1⟩ := p
    by_cases h : k1 = k
    · subst h
      simp [insertKey, lookupKey, Ne.symm hne]
    · simp [insertKey, lookupKey, h, ih]

theorem countSpawn_append (a b : List ExtEvent) :
    countSpawn (a ++ b) = countSpawn a + countSpawn b := by
  simp [countSpawn, List.countP_append]

theorem countSpawn_nil : countSpawn [] = 0 := rfl

theorem countSpawn_single_spawn : countSpawn [ExtEvent.spawnBlocking] = 1 := rfl

theorem countSpawn_spawn_cons (l : List ExtEvent) :
    countSpawn (ExtEvent.spawnBlocking :: l) = countSpawn l + 1 := by
  simp [countSpawn, List.countP_cons]

theorem countSpawn_fetch_quote
    (respond : String → Except String HttpResponse)
    (parseQuote : String → Except String QuoteResponse)
    (input_mint output_mint : String) (amount slippage : Nat) :
    countSpawn (Jupiter.fetch_quote respond parseQuote input_mint output_mint
      amount slippage).1 = 0 := rfl

theorem countSpawn_jupiter_swap
    (parsePubkey : String → Except String String)
    (ata : String → String → String)
    (respond : String → Except String HttpResponse)
    (parseSwapInstructions : String → Except String SwapInstructionsResponse)
    (blockhash : Except String String)
    (quote_response : QuoteResponse) (owner : String) :
    countSpawn (Jupiter.swap parsePubkey ata respond parseSwapInstructions
      blockhash quote_response owner).1 = 0 := by
  rcases hp : parsePubkey quote_response.output_mint with e | m
  · simp [Jupiter.swap, hp, countSpawn]
  · rcases hr : respond jupiterSwapInstructionsUrl with e | r
    · simp [Jupiter.swap, hp, hr, countSpawn]
    · cases hs : r.success
      · simp [Jupiter.swap, hp, hr, hs, countSpawn]
      · rcases hq : parseSwapInstructions r.body with e | response
        · simp [Jupiter.swap, hp, hr, hs, hq, countSpawn]
        · rcases hmm : (response.setup_instructions
              ++ [response.swap_instruction]).mapM
              (convert_instruction_data parsePubkey) with e | instrs
          · simp only [List.mapM] at hmm
            simp [Jupiter.swap, hp, hr, hs, hq, hmm, countSpawn]
          · simp only [List.mapM] at hmm
            cases blockhash <;>
              simp [Jupiter.swap, hp, hr, hs, hq, hmm, countSpawn]

theorem countSpawn_create_ata
    (ata : String → String → String)
    (ataIx : String → String → SolInstruction)
    (accountFound : String → Bool)
    (blockhash : Except String String)
    (owner mint : String) :
    countSpawn (create_ata_if_needed ata ataIx accountFound blockhash
      owner mint).1 = 0 := by
  cases hf : accountFound (ata owner mint)
  · cases blockhash <;> simp [create_ata_if_needed, hf, countSpawn]
  · simp [create_ata_if_needed, hf, countSpawn]

theorem countSpawn_create_trade
    (parsePubkey : String → Except String String)
    (ata : String → String → String)
    (respond : String → Except String HttpResponse)
    (parseQuote : String → Except String QuoteResponse)
    (parseSwapInstructions : String → Except String SwapInstructionsResponse)
    (blockhash : Except String String)
    (input_mint : String) (input_amount : Nat) (output_mint : String)
    (slippage_bps : Nat) (owner : String) :
    countSpawn (create_trade_transaction parsePubkey ata respond parseQuote
      parseSwapInstructions blockhash input_mint input_amount output_mint
      slippage_bps owner).1 = 0 := by
  rcases hf : (Jupiter.fetch_quote respond parseQuote input_mint output_mint
      input_amount slippage_bps).2 with e | quote
  · simp [create_trade_transaction, hf, countSpawn_fetch_quote]
  · rcases hs : (Jupiter.swap parsePubkey ata respond parseSwapInstructions
        blockhash quote owner).2 with e | tx <;>
      simp [create_trade_transaction, hf, hs, countSpawn_append,
        countSpawn_fetch_quote, countSpawn_jupiter_swap]

/-! ## Claim theorems -/

/-- C1 (code bug): at its own failing input the code does NOT propagate the
failure.  The string "!!!" is not valid base64, so handling the transaction
fails at the decode step; WalletManager::sign_and_send_encoded_solana_transaction
nevertheless returns a successful result, Ok("") — the `Default::default()`
value — after merely printing the error, for any deserialize oracle and any
HTTP oracle.  The same happens on the bincode-deserialize failure path. -/
theorem c1_encoded_solana_failure_swallowed :
    base64Decode "!!!" = Except.error "Invalid input length" ∧
    (sign_and_send_encoded_solana_transaction (some "wallet-1")
      (fun _ => Except.ok ()) okRespond (fun _ => Except.ok "hash")
      "addr1" "!!!").2 = Except.ok "" ∧
    (sign_and_send_encoded_solana_transaction (some "wallet-1")
      (fun _ => Except.error "io error") okRespond (fun _ => Except.ok "hash")
      "addr1" "AAAA").2 = Except.ok "" :=
  ⟨rfl, rfl, rfl⟩

/-- C2 (counterexample): sign_and_send_json_evm_transaction does not pass the
caller's transaction JSON through unchanged — for the input object `{}` the
transaction embedded in the outgoing SignTransactionRequest is
`{"type": 0}`. -/
theorem c2_evm_transaction_not_passed_through :
    (buildEvmSignRequest "0xowner" (Json.obj [])).params.transaction
      ≠ Json.obj [] := by
  simp [buildEvmSignRequest, setEvmTransactionType, insertKey]

/-- C2 (amended): the transaction object embedded in the outgoing
SignTransactionRequest equals the caller's input except for exactly one
modification made by this codebase: when the input is a JSON object its
"type" field is set to the number 0 (added, or overwritten if present), every
other field being passed through unchanged; non-object inputs pass through
unchanged, and the remaining request fields are the fixed address/chain
values. -/
theorem c2_evm_sign_request_passthrough_except_type (address : String)
    (transaction : Json) :
    (buildEvmSignRequest address transaction).address = address ∧
    (buildEvmSignRequest address transaction).chain_type = "ethereum" ∧
    (buildEvmSignRequest address transaction).method = "eth_signTransaction" ∧
    (∀ fields, transaction = Json.obj fields →
      (buildEvmSignRequest address transaction).params.transaction
          = Json.obj (insertKey "type" (Json.num 0) fields) ∧
      lookupKey "type" (insertKey "type" (Json.num 0) fields)
          = some (Json.num 0) ∧
      ∀ k, k ≠ "type" →
        lookupKey k (insertKey "type" (Json.num 0) fields)
          = lookupKey k fields) ∧
    ((∀ fields, transaction ≠ Json.obj fields) →
      (buildEvmSignRequest address transaction).params.transaction
        = transaction) := by
  refine ⟨rfl, rfl, rfl, ?_, ?_⟩
  · intro fields h
    subst h
    exact ⟨rfl, lookupKey_insertKey_self _ _ _,
      fun k hk => lookupKey_insertKey_ne _ _ hk _ _⟩
  · intro h
    cases transaction with
    | obj fields => exact absurd rfl (h fields)
    | null => rfl
    | bool b => rfl
    | num n => rfl
    | str s => rfl
    | arr xs => rfl

/-- C2 (witness): for the object `{"value": "0x1"}` the embedded transaction
carries "type" = 0 and leaves "value" untouched. -/
theorem c2_evm_sign_request_passthrough_except_type_witness :
    lookupKey "type" (insertKey "type" (Json.num 0)
        [("value", Json.str "0x1")]) = some (Json.num 0) ∧
    lookupKey "value" (insertKey "type" (Json.num 0)
        [("value", Json.str "0x1")]) = lookupKey "value" [("value", Json.str "0x1")] := by
  have h := (c2_evm_sign_request_passthrough_except_type "0xowner"
    (Json.obj [("value", Json.str "0x1")])).2.2.2.1
    [("value", Json.str "0x1")] rfl
  exact ⟨h.2.1, h.2.2 "value" (by decide)⟩

/-- C3: every call to SignerContext::current() evaluated during a computation
running inside SignerContext::with_signer(s, f) returns exactly the signer s
installed for that scope — the continuation after the current() call receives
s, and a bare current() yields s — resolved from the scope's task-local slot
and not from any other state. -/
theorem c3_current_returns_scoped_signer {σ α : Type} (s : σ)
    (k : σ → SignerComp σ α) :
    SignerContext.with_signer s
        (SignerComp.bind SignerContext.currentSigner k)
      = SignerContext.with_signer s (k s) ∧
    SignerContext.with_signer s (SignerContext.currentSigner (σ := σ))
      = some s :=
  ⟨rfl, rfl⟩

/-- C4: for a signer that does not override a chain's signing method, each of
the four default TransactionSigner methods returns, for every input
transaction, the Err stating that transactions of that chain are not
supported by this signer; being a total equation, unsupported dispatch never
succeeds or panics. -/
theorem c4_default_signer_methods_err :
    (∀ tx : SolTransaction,
      TransactionSigner.default_sign_and_send_solana_transaction tx
        = Except.error "Solana transactions not supported by this signer") ∧
    (∀ tx : Json,
      TransactionSigner.default_sign_and_send_evm_transaction tx
        = Except.error "EVM transactions not supported by this signer") ∧
    (∀ tx : String,
      TransactionSigner.default_sign_and_send_encoded_solana_transaction tx
        = Except.error "Solana transactions not supported by this signer") ∧
    (∀ tx : Json,
      TransactionSigner.default_sign_and_send_json_evm_transaction tx
        = Except.error "EVM transactions not supported by this signer") :=
  ⟨fun _ => rfl, fun _ => rfl, fun _ => rfl, fun _ => rfl⟩

/-- C7: multichain_swap dispatches on the shape of the fetched quote — a
Solana transaction request is signed and submitted through the signer's
encoded-Solana path with the request's raw data, a non-Solana request through
the signer's JSON-EVM path with its JSON-RPC form, and a quote with no
transaction request returns Err "No transaction request" while submitting
nothing. -/
theorem c7_multichain_swap_dispatch
    (quote : Except String QuoteModel)
    (signSolana : String → Except String String)
    (signEvm : Json → Except String String) :
    (∀ q tr, quote = Except.ok q → q.transaction_request = some tr →
      (tr.is_solana = true →
        multichain_swap quote signSolana signEvm
          = ([Submission.encodedSolana tr.data], signSolana tr.data)) ∧
      (tr.is_solana = false →
        multichain_swap quote signSolana signEvm
          = ([Submission.jsonEvm tr.to_json_rpc], signEvm tr.to_json_rpc))) ∧
    (∀ q, quote = Except.ok q → q.transaction_request = none →
      multichain_swap quote signSolana signEvm
        = ([], Except.error "No transaction request")) := by
  constructor
  · intro q tr hq htr
    subst hq
    constructor
    · intro hsol
      simp [multichain_swap, htr, hsol]
    · intro hsol
      simp [multichain_swap, htr, hsol]
  · intro q hq htr
    subst hq
    simp [multichain_swap, htr]

/-- C7 (witness): a quote carrying a Solana transaction request is submitted
through the encoded-Solana path, and a quote with no transaction request
yields the error without a submission. -/
theorem c7_multichain_swap_dispatch_witness :
    multichain_swap
        (Except.ok { transaction_request := some ⟨true, "AAEC", Json.null⟩ })
        (fun d => Except.ok d) (fun _ => Except.error "wrong path")
      = ([Submission.encodedSolana "AAEC"], Except.ok "AAEC") ∧
    multichain_swap (Except.ok { transaction_request := none })
        (fun d => Except.ok d) (fun _ => Except.error "wrong path")
      = ([], Except.error "No transaction request") := by
  constructor
  · exact ((c7_multichain_swap_dispatch _ _ _).1 _ _ rfl rfl).1 rfl
  · exact (c7_multichain_swap_dispatch _ _ _).2 _ rfl rfl

/-- C9: calling SignerContext::current() with the task-local signer slot
unset — outside any with_signer scope — panics (embedded as `none`), and so
does any tool that resolves the current signer, such as get_public_key;
inside a with_signer scope the same tool completes and returns the scoped
signer's pubkey, so executing inside a scope is the tools' unstated
precondition. -/
theorem c9_current_outside_scope_panics :
    runWithTaskLocal none (SignerContext.currentSigner (σ := SignerModel))
      = none ∧
    runWithTaskLocal none get_public_key = none ∧
    (∀ s : SignerModel, SignerContext.with_signer s get_public_key
        = some (Except.ok s.pubkey)) :=
  ⟨rfl, rfl, fun _ => rfl⟩

/-- C10: check_approval returns "true" exactly when the fetched allowance is
at least the parsed amount, "false" otherwise, and whenever the amount string
does not parse as an unsigned 128-bit decimal integer it returns
Err "Invalid amount" and no comparison result is produced. -/
theorem c10_check_approval_correct (a : Nat) (amount : String) :
    (parse_u128 amount = none →
      check_approval (Except.ok a) amount = Except.error "Invalid amount") ∧
    (∀ amt, parse_u128 amount = some amt →
      check_approval (Except.ok a) amount
        = Except.ok (if a ≥ amt then "true" else "false") ∧
      (check_approval (Except.ok a) amount = Except.ok "true" ↔ a ≥ amt)) := by
  constructor
  · intro h
    simp [check_approval, h]
  · intro amt h
    refine ⟨by simp [check_approval, h], ?_⟩
    have hs : ("false" : String) ≠ "true" := by decide
    rcases le_or_lt amt a with hge | hlt
    · simp [check_approval, h, hge]
    · have hn : ¬ a ≥ amt := not_le.mpr hlt
      simp [check_approval, h, hn, hs]

/-- C10 (witness): an allowance of 500 against amount "300" yields "true",
against "900" yields "false", and the non-numeric amount "12x" yields
Err "Invalid amount". -/
theorem c10_check_approval_correct_witness :
    check_approval (Except.ok 500) "300" = Except.ok "true" ∧
    check_approval (Except.ok 500) "900" = Except.ok "false" ∧
    check_approval (Except.ok 500) "12x" = Except.error "Invalid amount" := by
  refine ⟨?_, ?_, ?_⟩
  · exact ((c10_check_approval_correct 500 "300").2 300 (by decide)).2.mpr
      (by decide)
  · exact (((c10_check_approval_correct 500 "900").2 900 (by decide)).1).trans
      (by rfl)
  · exact (c10_check_approval_correct 500 "12x").1 (by decide)

/-- C5 (counterexample): a successful invocation of
WalletManager::sign_and_send_json_evm_transaction issues two HTTP requests —
the Privy signing call and the RPC broadcast call — not exactly one. -/
theorem c5_not_a_single_request :
    countHttp (sign_and_send_json_evm_transaction (some "wallet-1") okRespond
      (fun _ => Except.ok "0xsigned") (fun _ => Except.ok "0xhash")
      "0xowner" (Json.obj [])).1 = 2 ∧
    (sign_and_send_json_evm_transaction (some "wallet-1") okRespond
      (fun _ => Except.ok "0xsigned") (fun _ => Except.ok "0xhash")
      "0xowner" (Json.obj [])).2 = Except.ok "0xhash" :=
  ⟨rfl, rfl⟩

/-- C5 (amended): operations in the transaction-dispatch path issue a fixed
sequential series of external requests rather than exactly one:
sign_and_send_json_evm_transaction issues at most two HTTP requests per
invocation (the Privy signing call, then the RPC broadcast call) besides its
database query, and exactly two whenever it returns Ok. -/
theorem c5_json_evm_at_most_two_requests
    (walletId : Option String)
    (respond : String → Except String HttpResponse)
    (parseSignedTransaction parseTxHash : String → Except String String)
    (address : String) (transaction : Json) :
    countHttp (sign_and_send_json_evm_transaction walletId respond
      parseSignedTransaction parseTxHash address transaction).1 ≤ 2 ∧
    (∀ h, (sign_and_send_json_evm_transaction walletId respond
        parseSignedTransaction parseTxHash address transaction).2
          = Except.ok h →
      countHttp (sign_and_send_json_evm_transaction walletId respond
        parseSignedTransaction parseTxHash address transaction).1 = 2) := by
  rcases walletId with _ | wid
  · exact ⟨by simp [sign_and_send_json_evm_transaction, countHttp],
      by intro h hh; simp [sign_and_send_json_evm_transaction] at hh⟩
  · rcases hr : respond (privyWalletRpcUrl wid) with e | resp
    · exact ⟨by simp [sign_and_send_json_evm_transaction, hr, countHttp],
        by intro h hh; simp [sign_and_send_json_evm_transaction, hr] at hh⟩
    · cases hs : resp.success
      · exact ⟨by simp [sign_and_send_json_evm_transaction, hr, hs, countHttp],
          by intro h hh; simp [sign_and_send_json_evm_transaction, hr, hs] at hh⟩
      · rcases hp : parseSignedTransaction resp.body with e | signed_tx
        · exact ⟨by simp [sign_and_send_json_evm_transaction, hr, hs, hp, countHttp],
            by intro h hh
               simp [sign_and_send_json_evm_transaction, hr, hs, hp] at hh⟩
        · rcases hr2 : respond sonicRpcUrl with e | rpcResp
          · exact ⟨by simp [sign_and_send_json_evm_transaction, hr, hs, hp, hr2,
                countHttp],
              by intro h hh
                 simp [sign_and_send_json_evm_transaction, hr, hs, hp, hr2] at hh⟩
          · cases hs2 : rpcResp.success
            · exact ⟨by simp [sign_and_send_json_evm_transaction, hr, hs, hp,
                  hr2, hs2, countHttp],
                by intro h hh
                   simp [sign_and_send_json_evm_transaction, hr, hs, hp, hr2,
                     hs2] at hh⟩
            · rcases hph : parseTxHash rpcResp.body with e | tx_hash
              · exact ⟨by simp [sign_and_send_json_evm_transaction, hr, hs, hp,
                    hr2, hs2, hph, countHttp],
                  by intro h hh
                     simp [sign_and_send_json_evm_transaction, hr, hs, hp, hr2,
                       hs2, hph] at hh⟩
              · exact ⟨by simp [sign_and_send_json_evm_transaction, hr, hs, hp,
                    hr2, hs2, hph, countHttp],
                  by intro h hh
                     simp [sign_and_send_json_evm_transaction, hr, hs, hp, hr2,
                       hs2, hph, countHttp]⟩

/-- C5 (witness): the two-request bound instantiated at a successful
concrete invocation. -/
theorem c5_json_evm_at_most_two_requests_witness :
    countHttp (sign_and_send_json_evm_transaction (some "w2") okRespond
      (fun _ => Except.ok "sig") (fun _ => Except.ok "hash2")
      "owner2" Json.null).1 = 2 :=
  (c5_json_evm_at_most_two_requests (some "w2") okRespond
    (fun _ => Except.ok "sig") (fun _ => Except.ok "hash2")
    "owner2" Json.null).2 "hash2" rfl

/-- C6: the cited operations never retry a failed external request: within
one invocation each of Jupiter::swap and
sign_and_send_encoded_solana_transaction issues every external request at
most once (the trace has no duplicates, for every oracle), and whenever the
HTTP call fails at the network level or returns a non-success status the
operation returns an Err built from that failure. -/
theorem c6_no_retry_on_failure
    (parsePubkey : String → Except String String)
    (ata : String → String → String)
    (respond : String → Except String HttpResponse)
    (parseSwapInstructions : String → Except String SwapInstructionsResponse)
    (blockhash : Except String String)
    (quote_response : QuoteResponse) (owner : String)
    (walletId : Option String)
    (deserialize : List Nat → Except String Unit)
    (parseHash : String → Except String String)
    (address encoded_transaction : String) :
    (Jupiter.swap parsePubkey ata respond parseSwapInstructions blockhash
        quote_response owner).1.Nodup ∧
    (sign_and_send_encoded_solana_transaction walletId deserialize respond
        parseHash address encoded_transaction).1.Nodup ∧
    (∀ m r, parsePubkey quote_response.output_mint = Except.ok m →
      respond jupiterSwapInstructionsUrl = Except.ok r → r.success = false →
      (Jupiter.swap parsePubkey ata respond parseSwapInstructions blockhash
          quote_response owner).2
        = Except.error ("Jupiter Swap Error: " ++ r.body)) ∧
    (∀ m e, parsePubkey quote_response.output_mint = Except.ok m →
      respond jupiterSwapInstructionsUrl = Except.error e →
      (Jupiter.swap parsePubkey ata respond parseSwapInstructions blockhash
          quote_response owner).2 = Except.error e) ∧
    (∀ wid bytes r, walletId = some wid →
      base64Decode encoded_transaction = Except.ok bytes →
      deserialize bytes = Except.ok () →
      respond (privyWalletRpcUrl wid) = Except.ok r → r.success = false →
      (sign_and_send_encoded_solana_transaction walletId deserialize respond
          parseHash address encoded_transaction).2
        = Except.error ("Failed to sign transaction: " ++ r.body)) ∧
    (∀ wid bytes e, walletId = some wid →
      base64Decode encoded_transaction = Except.ok bytes →
      deserialize bytes = Except.ok () →
      respond (privyWalletRpcUrl wid) = Except.error e →
      (sign_and_send_encoded_solana_transaction walletId deserialize respond
          parseHash address encoded_transaction).2 = Except.error e) := by
  refine ⟨?_, ?_, ?_, ?_, ?_, ?_⟩
  · rcases hp : parsePubkey quote_response.output_mint with e | m
    · simp [Jupiter.swap, hp]
    · rcases hr : respond jupiterSwapInstructionsUrl with e | r
      · simp [Jupiter.swap, hp, hr]
      · cases hs : r.success
        · simp [Jupiter.swap, hp, hr, hs]
        · rcases hq : parseSwapInstructions r.body with e | response
          · simp [Jupiter.swap, hp, hr, hs, hq]
          · rcases hmm : (response.setup_instructions
                ++ [response.swap_instruction]).mapM
                (convert_instruction_data parsePubkey) with e | instrs
            · simp only [List.mapM] at hmm
              simp [Jupiter.swap, hp, hr, hs, hq, hmm]
            · simp only [List.mapM] at hmm
              cases blockhash <;> simp [Jupiter.swap, hp, hr, hs, hq, hmm]
  · rcases walletId with _ | wid
    · simp [sign_and_send_encoded_solana_transaction]
    · rcases hb : base64Decode encoded_transaction with e | bytes
      · simp [sign_and_send_encoded_solana_transaction, hb]
      · rcases hd : deserialize bytes with e | u
        · simp [sign_and_send_encoded_solana_transaction, hb, hd]
        · rcases hr : respond (privyWalletRpcUrl wid) with e | resp
          · simp [sign_and_send_encoded_solana_transaction, hb, hd, hr]
          · cases hs : resp.success
            · simp [sign_and_send_encoded_solana_transaction, hb, hd, hr, hs]
            · rcases hh : parseHash resp.body with e | hash <;>
                simp [sign_and_send_encoded_solana_transaction, hb, hd, hr,
                  hs, hh]
  · intro m r hp hr hs
    simp [Jupiter.swap, hp, hr, hs]
  · intro m e hp hr
    simp [Jupiter.swap, hp, hr]
  · intro wid bytes r hw hb hd hr hs
    subst hw
    simp [sign_and_send_encoded_solana_transaction, hb, hd, hr, hs]
  · intro wid bytes e hw hb hd hr
    subst hw
    simp [sign_and_send_encoded_solana_transaction, hb, hd, hr]

/-- C6 (witness): under an oracle whose HTTP responses carry a non-success
status with body "boom", both operations report the failure as an Err. -/
theorem c6_no_retry_on_failure_witness :
    (Jupiter.swap okPubkeyParse (fun o m => o ++ m) failRespond
      (fun _ => Except.ok sampleSwapInstructions) (Except.ok "BH")
      sampleQuote "OWNER").2 = Except.error "Jupiter Swap Error: boom" ∧
    (sign_and_send_encoded_solana_transaction (some "w1")
      (fun _ => Except.ok ()) failRespond (fun _ => Except.ok "h")
      "addr" "AAAA").2 = Except.error "Failed to sign transaction: boom" := by
  have h := c6_no_retry_on_failure okPubkeyParse (fun o m => o ++ m)
    failRespond (fun _ => Except.ok sampleSwapInstructions) (Except.ok "BH")
    sampleQuote "OWNER" (some "w1") (fun _ => Except.ok ())
    (fun _ => Except.ok "h") "addr" "AAAA"
  exact ⟨h.2.2.1 "OUTMINT" { success := false, body := "boom" } rfl rfl rfl,
    h.2.2.2.2.1 "w1" [0, 0, 0] { success := false, body := "boom" }
      rfl rfl rfl rfl rfl⟩

/-- C8 (counterexample): perform_jupiter_swap spawns two ad-hoc blocking
worker tasks in one successful invocation — one per signing step — so "at
most one blocking worker task per invocation" fails. -/
theorem c8_two_blocking_tasks :
    ¬ countSpawn (perform_jupiter_swap okPubkeyParse (fun o m => o ++ m)
        (fun _ _ => ⟨"ATA", [], []⟩) (fun _ => true) okRespond
        (fun _ => Except.ok sampleQuote)
        (fun _ => Except.ok sampleSwapInstructions) (Except.ok "BH")
        (fun _ => Except.ok "SIG") none none "OWNER"
        "INMINT" 1000 "OUTMINT" 50).1 ≤ 1 ∧
    (perform_jupiter_swap okPubkeyParse (fun o m => o ++ m)
        (fun _ _ => ⟨"ATA", [], []⟩) (fun _ => true) okRespond
        (fun _ => Except.ok sampleQuote)
        (fun _ => Except.ok sampleSwapInstructions) (Except.ok "BH")
        (fun _ => Except.ok "SIG") none none "OWNER"
        "INMINT" 1000 "OUTMINT" 50).2 = Except.ok "SIG" :=
  ⟨by decide, rfl⟩

/-- C8 (amended): perform_jupiter_swap spawns at most two ad-hoc blocking
worker tasks per invocation — exactly two whenever it returns Ok, one per
sequentially awaited signing step — and performs no other concurrency
coordination. -/
theorem c8_at_most_two_blocking_tasks
    (parsePubkey : String → Except String String)
    (ata : String → String → String)
    (ataIx : String → String → SolInstruction)
    (accountFound : String → Bool)
    (respond : String → Except String HttpResponse)
    (parseQuote : String → Except String QuoteResponse)
    (parseSwapInstructions : String → Except String SwapInstructionsResponse)
    (blockhash : Except String String)
    (signTx : SolTransaction → Except String String)
    (joinError1 joinError2 : Option String)
    (ownerPubkey : String)
    (input_mint : String) (input_amount : Nat) (output_mint : String)
    (slippage_bps : Nat) :
    countSpawn (perform_jupiter_swap parsePubkey ata ataIx accountFound
      respond parseQuote parseSwapInstructions blockhash signTx joinError1
      joinError2 ownerPubkey input_mint input_amount output_mint
      slippage_bps).1 ≤ 2 ∧
    (∀ h, (perform_jupiter_swap parsePubkey ata ataIx accountFound respond
        parseQuote parseSwapInstructions blockhash signTx joinError1
        joinError2 ownerPubkey input_mint input_amount output_mint
        slippage_bps).2 = Except.ok h →
      countSpawn (perform_jupiter_swap parsePubkey ata ataIx accountFound
        respond parseQuote parseSwapInstructions blockhash signTx joinError1
        joinError2 ownerPubkey input_mint input_amount output_mint
        slippage_bps).1 = 2) := by
  rcases ho : parsePubkey ownerPubkey with e | owner_pubkey
  · exact ⟨by simp [perform_jupiter_swap, ho, countSpawn_nil],
      by intro h hh; simp [perform_jupiter_swap, ho] at hh⟩
  · rcases hm : parsePubkey output_mint with e | output_mint_pubkey
    · exact ⟨by simp [perform_jupiter_swap, ho, hm, countSpawn_nil],
        by intro h hh; simp [perform_jupiter_swap, ho, hm] at hh⟩
    · rcases hc : (create_ata_if_needed ata ataIx accountFound blockhash
          owner_pubkey output_mint_pubkey).2 with e | tx_ata
      · exact ⟨by simp [perform_jupiter_swap, ho, hm, hc,
            countSpawn_create_ata],
          by intro h hh; simp [perform_jupiter_swap, ho, hm, hc] at hh⟩
      · rcases hj1 : joinError1 with _ | je
        · rcases hsx : signTx tx_ata with e | r1
          · exact ⟨by norm_num [perform_jupiter_swap, ho, hm, hc, hj1, hsx,
                countSpawn_append, countSpawn_create_ata,
                countSpawn_single_spawn,
                countSpawn_spawn_cons, countSpawn_nil],
              by intro h hh
                 simp [perform_jupiter_swap, ho, hm, hc, hj1, hsx] at hh⟩
          · rcases ht : (create_trade_transaction parsePubkey ata respond
                parseQuote parseSwapInstructions blockhash input_mint
                input_amount output_mint slippage_bps owner_pubkey).2
                with e | tx
            · exact ⟨by norm_num [perform_jupiter_swap, ho, hm, hc, hj1, hsx,
                  ht, countSpawn_append, countSpawn_create_ata,
                  countSpawn_create_trade, countSpawn_single_spawn,
                countSpawn_spawn_cons, countSpawn_nil],
                by intro h hh
                   simp [perform_jupiter_swap, ho, hm, hc, hj1, hsx, ht] at hh⟩
            · rcases hj2 : joinError2 with _ | je2
              · rcases hsx2 : signTx tx with e | r2 <;>
                  exact ⟨by norm_num [perform_jupiter_swap, ho, hm, hc, hj1,
                      hsx, ht, hj2, hsx2, countSpawn_append,
                      countSpawn_create_ata, countSpawn_create_trade,
                      countSpawn_single_spawn,
                countSpawn_spawn_cons, countSpawn_nil],
                    by intro h hh
                       norm_num [perform_jupiter_swap, ho, hm, hc, hj1, hsx,
                         ht, hj2, hsx2, countSpawn_append,
                         countSpawn_create_ata, countSpawn_create_trade,
                         countSpawn_single_spawn,
                countSpawn_spawn_cons, countSpawn_nil] at hh ⊢⟩
              · exact ⟨by norm_num [perform_jupiter_swap, ho, hm, hc, hj1,
                    hsx, ht, hj2, countSpawn_append, countSpawn_create_ata,
                    countSpawn_create_trade, countSpawn_single_spawn,
                countSpawn_spawn_cons, countSpawn_nil],
                  by intro h hh
                     simp [perform_jupiter_swap, ho, hm, hc, hj1, hsx, ht,
                       hj2] at hh⟩
        · exact ⟨by norm_num [perform_jupiter_swap, ho, hm, hc, hj1,
              countSpawn_append, countSpawn_create_ata,
              countSpawn_single_spawn,
                countSpawn_spawn_cons, countSpawn_nil],
            by intro h hh
               simp [perform_jupiter_swap, ho, hm, hc, hj1] at hh⟩

/-- C8 (witness): the two-task count instantiated at a successful concrete
invocation. -/
theorem c8_at_most_two_blocking_tasks_witness :
    countSpawn (perform_jupiter_swap okPubkeyParse (fun o m => o ++ m)
      (fun _ _ => ⟨"ATA", [], []⟩) (fun _ => true) okRespond
      (fun _ => Except.ok sampleQuote)
      (fun _ => Except.ok sampleSwapInstructions) (Except.ok "BH")
      (fun _ => Except.ok "SIG2") none none "OWNER2"
      "INMINT" 500 "OUTMINT" 75).1 = 2 :=
  (c8_at_most_two_blocking_tasks okPubkeyParse (fun o m => o ++ m)
    (fun _ _ => ⟨"ATA", [], []⟩) (fun _ => true) okRespond
    (fun _ => Except.ok sampleQuote)
    (fun _ => Except.ok sampleSwapInstructions) (Except.ok "BH")
    (fun _ => Except.ok "SIG2") none none "OWNER2"
    "INMINT" 500 "OUTMINT" 75).2 "SIG2" rfl

end AgentSonic
